import Mathlib

/-!
Verification development for the string memory inspector of this repository
(src/inspector.rs, src/transformer.rs, src/main.rs).

Modelling conventions:
* Machine addresses (`usize` pointers) are modelled as `Nat`.  The comparison
  logic only ever tests addresses for equality, never their numeric value.
* Rust `usize` lengths and capacities are modelled as `Nat`.  Rust caps every
  allocation at `isize::MAX`, so the `as i64` casts performed by
  `compare_memory_layout` on lengths and capacities are lossless; the signed
  deltas are therefore modelled as `Int` subtraction.
* Rust string contents are modelled as `List Char` (the sequence of Unicode
  scalar values, exactly what `s.chars()` yields); byte length is the sum of
  the UTF-8 sizes of the characters.
* The standard library `String` type (its `len`/`capacity`/`as_ptr` accessors
  and its amortised growth on `push_str`) is not part of this repository; it
  is modelled from the spec where a claim depends on it (see `GrowthOracle`
  and `push_str` below).
-/

/-- Translation of `char::len_utf8` from the Rust standard library, used by
`display_bytes` (inspector.rs line 370): the number of bytes of the UTF-8
encoding of a Unicode scalar value. -/
def len_utf8 (c : Char) : Nat :=
  if c.val < 0x80 then 1
  else if c.val < 0x800 then 2
  else if c.val < 0x10000 then 3
  else 4

/-- Byte length of a Rust string content: `s.len()` on `&str` and `String`
counts UTF-8 encoded bytes. -/
def byteLen (l : List Char) : Nat :=
  (l.map len_utf8).sum

/-- Character count of a Rust string content: `s.chars().count()`. -/
def charsCount (l : List Char) : Nat :=
  l.length

/-- Translation of `StringMemoryInfo` (inspector.rs lines 12-26). -/
structure StringMemoryInfo where
  data_ptr : Nat
  object_ptr : Nat
  length : Nat
  capacity : Nat
  is_heap_allocated : Bool
  desc : String
deriving DecidableEq, Repr

/-- Model of a Rust `&str` fat pointer: a data address plus a byte length
(inspector.rs lines 120-126 document this layout).  The inspector only reads
the address and the length of a view, never its bytes, so the content is not
carried here. -/
structure StrRef where
  addr : Nat
  len : Nat
deriving DecidableEq, Repr

/-- Model of a Rust `String`: the address of its heap buffer, the reserved
capacity in bytes, and its content.  The Rust `len` field always equals the
byte length of the content, so it is derived (`byteLen data`) rather than
stored. -/
structure RustString where
  addr : Nat
  capacity : Nat
  data : List Char
deriving DecidableEq, Repr

/-- Invariant maintained by the Rust standard library `String` type: the used
length never exceeds the reserved capacity. -/
def RustString.WF (s : RustString) : Prop :=
  byteLen s.data ≤ s.capacity

instance (s : RustString) : Decidable s.WF := by
  unfold RustString.WF; infer_instance

/-- Model of a Rust `Box<str>`: an owning pointer to an exactly sized heap
buffer (inspector.rs lines 145-150). -/
structure BoxStr where
  addr : Nat
  data : List Char
deriving DecidableEq, Repr

/-- Model of a Rust `Cow<str>`: either a borrowed view or an owned `String`
(inspector.rs lines 162-168). -/
inductive CowStr where
  | borrowed (r : StrRef)
  | owned (s : RustString)
deriving DecidableEq, Repr

/-- Translation of `std::ptr::eq` applied to two `&str` values, as used by
`is_static_str` (inspector.rs line 201).  On fat pointers `ptr::eq` compares
both the data address and the metadata (the length). -/
def ptrEqStr (a b : StrRef) : Bool :=
  a.addr == b.addr && a.len == b.len

/-- Translation of `is_static_str` (inspector.rs lines 199-207): with a
reference supplied it is fat-pointer equality via `std::ptr::eq`; without a
reference it is always `false` (no heuristics). -/
def is_static_str (s : StrRef) (static_ref : Option StrRef) : Bool :=
  match static_ref with
  | some reference => ptrEqStr s reference
  | none => false

/-- Translation of `inspect_string` (inspector.rs lines 107-118).  `descAddr`
is the address of the `String` descriptor itself (`s as *const String as
usize`), which the caller determines; the buffer address, length and capacity
come from the value. -/
def inspect_string (s : RustString) (descAddr : Nat) (description : String) :
    StringMemoryInfo :=
  { data_ptr := s.addr
    object_ptr := descAddr
    length := byteLen s.data
    capacity := s.capacity
    is_heap_allocated := true
    desc := description }

/-- Translation of `inspect_str` (inspector.rs lines 127-143).  The code calls
`is_static_str(s, None)`, so `is_static` is always false here; `object_ptr` is
`s as *const str as *const () as usize`, which is the data address of the view
itself; capacity is set to the length (a `&str` has no separate capacity). -/
def inspect_str (s : StrRef) (description : String) : StringMemoryInfo :=
  let is_static := is_static_str s none
  { data_ptr := s.addr
    object_ptr := s.addr
    length := s.len
    capacity := s.len
    is_heap_allocated := !is_static
    desc := description ++ " | Location: " ++
      (if is_static then "Static (Binary)" else "Dynamic") }

/-- Translation of `inspect_boxed_str` (inspector.rs lines 151-160): exactly
sized, capacity equals length, heap allocated.  `object_ptr` is
`s.as_ref() as *const str as *const ()`, which for a `Box<str>` is again the
address of the heap data. -/
def inspect_boxed_str (b : BoxStr) (description : String) : StringMemoryInfo :=
  { data_ptr := b.addr
    object_ptr := b.addr
    length := byteLen b.data
    capacity := byteLen b.data
    is_heap_allocated := true
    desc := description ++ " | Type: Box<str> (immutable)" }

/-- Translation of `inspect_cow` (inspector.rs lines 169-191): a borrowed cow
reports the address and length of the underlying view with capacity equal to
that length and not heap allocated; an owned cow reports the internal buffer
address, length and capacity and is heap allocated.  `wrapperAddr` is the
address of the `Cow` descriptor itself (`s as *const Cow<str>`), recorded as
`object_ptr`. -/
def inspect_cow (c : CowStr) (wrapperAddr : Nat) (description : String) :
    StringMemoryInfo :=
  let t : Bool × Nat × Nat :=
    match c with
    | .borrowed str_ref => (false, str_ref.addr, str_ref.len)
    | .owned string => (true, string.addr, string.capacity)
  let is_owned := t.1
  { data_ptr := t.2.1
    object_ptr := wrapperAddr
    length := (match c with
      | .borrowed str_ref => str_ref.len
      | .owned string => byteLen string.data)
    capacity := t.2.2
    is_heap_allocated := is_owned
    desc := description ++ " | Cow: " ++ (if is_owned then "Owned" else "Borrowed") }

/-- The observable content of the report printed by `compare_memory_layout`
(inspector.rs lines 210-323), stripped of pure formatting.  `capacity_delta`
and `length_delta` are `some` exactly when the corresponding value changed
(the code computes and prints the signed delta inside the `if changed` branch
and prints UNCHANGED otherwise); `realloc_grew` records whether the
"Reallocation triggered - grew by ..." message is printed (lines 291-294),
which happens when the capacity changed and the new capacity is larger. -/
structure ComparisonReport where
  ptr_changed : Bool
  capacity_changed : Bool
  length_changed : Bool
  arrow_new_alloc : Bool
  capacity_delta : Option Int
  realloc_grew : Bool
  length_delta : Option Int
deriving DecidableEq, Repr

/-- Translation of `compare_memory_layout` (inspector.rs lines 210-323): the
three booleans are computed at lines 232-234 by direct inequality of the two
snapshots; the arrow label NEW ALLOCATION vs in-place follows `ptr_changed`;
each delta is `info2 - info1` computed via `as i64` casts (lines 279, 303),
only inside the branch where the value changed. -/
def compare_memory_layout (info1 info2 : StringMemoryInfo) : ComparisonReport :=
  let ptr_changed := info1.data_ptr != info2.data_ptr
  let capacity_changed := info1.capacity != info2.capacity
  let length_changed := info1.length != info2.length
  { ptr_changed := ptr_changed
    capacity_changed := capacity_changed
    length_changed := length_changed
    arrow_new_alloc := ptr_changed
    capacity_delta :=
      if capacity_changed then
        some ((info2.capacity : Int) - (info1.capacity : Int))
      else none
    realloc_grew := capacity_changed && decide (info1.capacity < info2.capacity)
    length_delta :=
      if length_changed then
        some ((info2.length : Int) - (info1.length : Int))
      else none }

/-- CLAIM C1: the comparison computes exactly the three booleans
location/capacity/length changed as direct inequalities between the snapshots,
and the signed deltas `after - before` for capacity and length, reported
verbatim (no hypothesis on the pointer classification is needed for the delta
facts). -/
theorem compare_booleans_and_deltas (i1 i2 : StringMemoryInfo) :
    (compare_memory_layout i1 i2).ptr_changed = decide (i1.data_ptr ≠ i2.data_ptr) ∧
    (compare_memory_layout i1 i2).capacity_changed = decide (i1.capacity ≠ i2.capacity) ∧
    (compare_memory_layout i1 i2).length_changed = decide (i1.length ≠ i2.length) ∧
    (i1.capacity ≠ i2.capacity →
      (compare_memory_layout i1 i2).capacity_delta =
        some ((i2.capacity : Int) - (i1.capacity : Int))) ∧
    (i1.length ≠ i2.length →
      (compare_memory_layout i1 i2).length_delta =
        some ((i2.length : Int) - (i1.length : Int))) := by
  refine ⟨?_, ?_, ?_, ?_, ?_⟩ <;>
    simp [compare_memory_layout, bne, beq_eq_decide]

/-- Witness for C1 at a concrete snapshot pair with both capacity and length
changed. -/
theorem compare_booleans_and_deltas_witness :
    let i1 : StringMemoryInfo :=
      { data_ptr := 4096, object_ptr := 1, length := 4, capacity := 8,
        is_heap_allocated := true, desc := "before" }
    let i2 : StringMemoryInfo :=
      { data_ptr := 8192, object_ptr := 1, length := 9, capacity := 16,
        is_heap_allocated := true, desc := "after" }
    i1.capacity ≠ i2.capacity ∧ i1.length ≠ i2.length ∧
    (compare_memory_layout i1 i2).capacity_delta = some 8 ∧
    (compare_memory_layout i1 i2).length_delta = some 5 := by
  refine ⟨by decide, by decide, ?_, ?_⟩
  · exact (compare_booleans_and_deltas _ _).2.2.2.1 (by decide)
  · exact (compare_booleans_and_deltas _ _).2.2.2.2 (by decide)

/-- CLAIM C2, counterexample: at a snapshot pair where the capacity changed
(8 to 16) but the data pointer did not (both 4096), `compare_memory_layout`
produces its ordinary report: the pointer is classified UNCHANGED / in-place
(`ptr_changed = false`, `arrow_new_alloc = false`) and the capacity change is
reported as a normal reallocation growth message.  The `ComparisonReport`
output, shown in full here, contains no assertion failure and no
inconsistent-snapshot-pair signal of any kind, contradicting the claim that
such a pair is flagged as a diagnostic defect rather than classified. -/
theorem compare_contradiction_no_defect :
    compare_memory_layout
      { data_ptr := 4096, object_ptr := 1, length := 4, capacity := 8,
        is_heap_allocated := true, desc := "before" }
      { data_ptr := 4096, object_ptr := 1, length := 4, capacity := 16,
        is_heap_allocated := true, desc := "after" } =
    { ptr_changed := false, capacity_changed := true, length_changed := false,
      arrow_new_alloc := false, capacity_delta := some 8, realloc_grew := true,
      length_delta := none } := by
  decide

/-- CLAIM C2, amended: for every pair of snapshots where the capacity changed
but the data pointer did not, the comparison still produces a valid
classification — the pointer is reported UNCHANGED / modified in-place — and
the capacity change is reported with its verbatim delta (with the
reallocation-growth message exactly when the capacity grew); no defect is
signaled. -/
theorem compare_contradiction_classified_in_place
    (i1 i2 : StringMemoryInfo)
    (hptr : i1.data_ptr = i2.data_ptr) (hcap : i1.capacity ≠ i2.capacity) :
    (compare_memory_layout i1 i2).ptr_changed = false ∧
    (compare_memory_layout i1 i2).arrow_new_alloc = false ∧
    (compare_memory_layout i1 i2).capacity_delta =
      some ((i2.capacity : Int) - (i1.capacity : Int)) ∧
    (compare_memory_layout i1 i2).realloc_grew =
      decide (i1.capacity < i2.capacity) := by
  refine ⟨?_, ?_, ?_, ?_⟩ <;>
    simp [compare_memory_layout, hptr, bne, beq_eq_decide, hcap]

/-- Witness for the amended C2 at the concrete pair of the counterexample. -/
theorem compare_contradiction_classified_in_place_witness :
    let i1 : StringMemoryInfo :=
      { data_ptr := 4096, object_ptr := 1, length := 4, capacity := 8,
        is_heap_allocated := true, desc := "before" }
    let i2 : StringMemoryInfo :=
      { data_ptr := 4096, object_ptr := 1, length := 4, capacity := 16,
        is_heap_allocated := true, desc := "after" }
    i1.data_ptr = i2.data_ptr ∧ i1.capacity ≠ i2.capacity ∧
    (compare_memory_layout i1 i2).ptr_changed = false ∧
    (compare_memory_layout i1 i2).capacity_delta = some 8 := by
  refine ⟨by decide, by decide, ?_, ?_⟩
  · exact (compare_contradiction_classified_in_place _ _ (by decide) (by decide)).1
  · exact (compare_contradiction_classified_in_place _ _ (by decide) (by decide)).2.2.1

/-- CLAIM C3, counterexample: the view at address 4096 with length 3 (a strict
prefix slice of the static string at address 4096 with length 5) has an
address identical to the supplied static reference, yet `is_static_str`
classifies it as not static, because `std::ptr::eq` on `&str` compares the
length metadata of the fat pointers as well as the address.  This contradicts
the claim that address identity alone suffices for the `Static`
classification. -/
theorem is_static_str_addr_eq_not_static :
    let s : StrRef := { addr := 4096, len := 3 }
    let reference : StrRef := { addr := 4096, len := 5 }
    s.addr = reference.addr ∧ is_static_str s (some reference) = false := by
  decide

/-- CLAIM C3, amended: `is_static_str` returns true exactly when a static
reference is supplied and the view agrees with it as a fat pointer — same
address and same length; in every other case, including when no reference is
supplied, the result is false.  Moreover the snapshot operation `inspect_str`
never supplies a reference, so every view snapshot it produces is classified
dynamic (heap allocated flag true, location text Dynamic), never Static. -/
theorem is_static_str_iff (s : StrRef) (static_ref : Option StrRef) (d : String) :
    (is_static_str s static_ref = true ↔
      ∃ r, static_ref = some r ∧ s.addr = r.addr ∧ s.len = r.len) ∧
    (inspect_str s d).is_heap_allocated = true := by
  constructor
  · cases static_ref with
    | none => simp [is_static_str]
    | some r =>
      simp only [is_static_str, ptrEqStr, Bool.and_eq_true, beq_iff_eq,
        Option.some.injEq]
      constructor
      · rintro ⟨h1, h2⟩; exact ⟨r, rfl, h1, h2⟩
      · rintro ⟨r', hr', h1, h2⟩; cases hr'; exact ⟨h1, h2⟩
  · rfl

/-- CLAIM C4: every snapshot produced by the four capture operations satisfies
`length <= capacity`; the view capture and the borrowed cow capture (and in
fact also the owned fixed capture) give `capacity = length` exactly.  For the
owned growable buffer cases the hypothesis `WF` is the invariant the Rust
standard library `String` maintains for every live value. -/
theorem snapshot_invariants :
    (∀ (s : RustString) (a : Nat) (d : String), s.WF →
      (inspect_string s a d).length ≤ (inspect_string s a d).capacity) ∧
    (∀ (r : StrRef) (d : String),
      (inspect_str r d).capacity = (inspect_str r d).length) ∧
    (∀ (b : BoxStr) (d : String),
      (inspect_boxed_str b d).capacity = (inspect_boxed_str b d).length) ∧
    (∀ (r : StrRef) (w : Nat) (d : String),
      (inspect_cow (.borrowed r) w d).capacity =
        (inspect_cow (.borrowed r) w d).length) ∧
    (∀ (s : RustString) (w : Nat) (d : String), s.WF →
      (inspect_cow (.owned s) w d).length ≤ (inspect_cow (.owned s) w d).capacity) := by
  exact ⟨fun s a d h => h, fun r d => rfl, fun b d => rfl,
    fun r w d => rfl, fun s w d h => h⟩

/-- Witness for C4 at a concrete well formed string (length 4, capacity 8)
captured both as an owned growable value and as an owned cow. -/
theorem snapshot_invariants_witness :
    let s : RustString := { addr := 4096, capacity := 8, data := ['R', 'u', 's', 't'] }
    s.WF ∧
    (inspect_string s 1 "demo").length ≤ (inspect_string s 1 "demo").capacity ∧
    (inspect_cow (.owned s) 2 "demo").length ≤ (inspect_cow (.owned s) 2 "demo").capacity := by
  refine ⟨by decide, ?_, ?_⟩
  · exact snapshot_invariants.1 _ 1 "demo" (by decide)
  · exact snapshot_invariants.2.2.2.2 _ 2 "demo" (by decide)

/-- Modelled from the spec: the amortised growth discipline of the standard
library owned growable string (spec section 4.3), which is not code of this
repository.  When an append would exceed the current capacity, a new, larger
buffer at a fresh address replaces the old one; the fresh address and the new
capacity are implementation defined, so they are supplied by an oracle that
guarantees only the qualitative facts the spec states: the new buffer is a
different allocation, and it is at least large enough for the new content. -/
structure GrowthOracle where
  freshAddr : Nat → Nat → Nat
  newCap : Nat → Nat → Nat
  fresh_ne : ∀ a n, freshAddr a n ≠ a
  cap_ge : ∀ c n, n ≤ newCap c n

/-- Modelled from the spec: `String::push_str` of the Rust standard library
(spec section 4.3).  If the appended bytes fit in the current capacity the
content grows in place; otherwise the buffer is replaced by a fresh, larger
one chosen by the growth oracle and all bytes are copied over. -/
def push_str (g : GrowthOracle) (s : RustString) (t : List Char) : RustString :=
  if byteLen s.data + byteLen t ≤ s.capacity then
    { s with data := s.data ++ t }
  else
    { addr := g.freshAddr s.addr (byteLen s.data + byteLen t)
      capacity := g.newCap s.capacity (byteLen s.data + byteLen t)
      data := s.data ++ t }

/-- Modelled from the spec: `String::with_capacity` of the Rust standard
library — a fresh empty buffer of the requested capacity at a given
address. -/
def with_capacity (a n : Nat) : RustString :=
  { addr := a, capacity := n, data := [] }

/-- Whether a given `push_str` call takes the reallocation branch. -/
def push_reallocates (s : RustString) (t : List Char) : Bool :=
  decide (s.capacity < byteLen s.data + byteLen t)

theorem byteLen_append (a b : List Char) :
    byteLen (a ++ b) = byteLen a + byteLen b := by
  simp [byteLen]

theorem push_str_WF (g : GrowthOracle) (s : RustString) (t : List Char) :
    (push_str g s t).WF := by
  unfold push_str RustString.WF
  by_cases hc : byteLen s.data + byteLen t ≤ s.capacity
  · simp [hc, byteLen_append]
  · simp [hc, byteLen_append]
    exact g.cap_ge _ _

/-- CLAIM C5: appending content that exceeds the current capacity yields a
comparison with `ptr_changed = true` and `capacity_changed = true`, the new
capacity strictly larger than the old one and at least the new total length;
the statement quantifies over every growth oracle, so nothing is asserted
about the exact growth factor. -/
theorem exceeding_capacity_reallocates
    (g : GrowthOracle) (s : RustString) (t : List Char) (a1 a2 : Nat)
    (h : s.capacity < byteLen s.data + byteLen t) :
    (compare_memory_layout (inspect_string s a1 "before")
        (inspect_string (push_str g s t) a2 "after")).ptr_changed = true ∧
    (compare_memory_layout (inspect_string s a1 "before")
        (inspect_string (push_str g s t) a2 "after")).capacity_changed = true ∧
    s.capacity < (push_str g s t).capacity ∧
    byteLen s.data + byteLen t ≤ (push_str g s t).capacity := by
  have hc : ¬ byteLen s.data + byteLen t ≤ s.capacity := by omega
  have hcap : (push_str g s t).capacity = g.newCap s.capacity (byteLen s.data + byteLen t) := by
    simp [push_str, hc]
  have haddr : (push_str g s t).addr = g.freshAddr s.addr (byteLen s.data + byteLen t) := by
    simp [push_str, hc]
  have hge : byteLen s.data + byteLen t ≤ (push_str g s t).capacity := by
    rw [hcap]; exact g.cap_ge _ _
  have hlt : s.capacity < (push_str g s t).capacity := lt_of_lt_of_le h hge
  refine ⟨?_, ?_, hlt, hge⟩
  · have hne : s.addr ≠ (push_str g s t).addr := by
      rw [haddr]; exact (g.fresh_ne s.addr (byteLen s.data + byteLen t)).symm
    simpa [compare_memory_layout, inspect_string, bne_iff_ne] using hne
  · have hne : s.capacity ≠ (push_str g s t).capacity := Nat.ne_of_lt hlt
    simpa [compare_memory_layout, inspect_string, bne_iff_ne] using hne

/-- Concrete growth oracle used by the witnesses: the fresh buffer sits just
past the old one and the capacity doubles or takes the required size,
whichever is larger.  Any oracle would do; this one makes the demo scenario
executable. -/
def demoOracle : GrowthOracle where
  freshAddr := fun a _ => a + 1
  newCap := fun c n => max (2 * c) n
  fresh_ne := fun a _ => Nat.succ_ne_self a
  cap_ge := fun _ _ => le_max_right _ _

/-- Concrete string of the capacity demo after the within-capacity write: the
four bytes of Rust in a buffer of reserved capacity 8 (main.rs lines
222-238). -/
def sRustDemo : RustString :=
  { addr := 4096, capacity := 8, data := ['R', 'u', 's', 't'] }

/-- The five exclamation marks appended by the demo to exceed the capacity
(main.rs line 260). -/
def bangBang : List Char :=
  ['!', '!', '!', '!', '!']

/-- Witness for C5: the concrete scenario of the demo — reserve capacity 8,
write the four bytes of Rust, then append five exclamation marks for a total
of 9 bytes, exceeding the capacity; the comparison reports a moved pointer
and a changed capacity, and the new capacity is at least 9. -/
theorem exceeding_capacity_reallocates_witness :
    sRustDemo.capacity < byteLen sRustDemo.data + byteLen bangBang ∧
    (compare_memory_layout (inspect_string sRustDemo 1 "before")
        (inspect_string (push_str demoOracle sRustDemo bangBang) 2 "after")).ptr_changed = true ∧
    (compare_memory_layout (inspect_string sRustDemo 1 "before")
        (inspect_string (push_str demoOracle sRustDemo bangBang) 2 "after")).capacity_changed = true ∧
    9 ≤ (push_str demoOracle sRustDemo bangBang).capacity := by
  have h : sRustDemo.capacity < byteLen sRustDemo.data + byteLen bangBang := by
    decide
  have h9 : byteLen sRustDemo.data + byteLen bangBang = 9 := by decide
  refine ⟨h, ?_, ?_, ?_⟩
  · exact (exceeding_capacity_reallocates demoOracle sRustDemo bangBang 1 2 h).1
  · exact (exceeding_capacity_reallocates demoOracle sRustDemo bangBang 1 2 h).2.1
  · exact h9 ▸ (exceeding_capacity_reallocates demoOracle sRustDemo bangBang 1 2 h).2.2.2

/-- CLAIM C6: the copy-on-write snapshot reports, for a borrowed wrapper, the
underlying view address and length with capacity equal to that length and not
heap allocated; for an owned wrapper, the internal buffer address, length and
capacity with the heap classification; and in both cases the wrapper
descriptor address as `object_ptr`. -/
theorem inspect_cow_reports (w : Nat) (d : String) :
    (∀ r : StrRef,
      (inspect_cow (.borrowed r) w d).data_ptr = r.addr ∧
      (inspect_cow (.borrowed r) w d).length = r.len ∧
      (inspect_cow (.borrowed r) w d).capacity = r.len ∧
      (inspect_cow (.borrowed r) w d).is_heap_allocated = false ∧
      (inspect_cow (.borrowed r) w d).object_ptr = w) ∧
    (∀ s : RustString,
      (inspect_cow (.owned s) w d).data_ptr = s.addr ∧
      (inspect_cow (.owned s) w d).length = byteLen s.data ∧
      (inspect_cow (.owned s) w d).capacity = s.capacity ∧
      (inspect_cow (.owned s) w d).is_heap_allocated = true ∧
      (inspect_cow (.owned s) w d).object_ptr = w) := by
  exact ⟨fun r => ⟨rfl, rfl, rfl, rfl, rfl⟩, fun s => ⟨rfl, rfl, rfl, rfl, rfl⟩⟩

/-- Content of the demo string of section 8 property 8: four ASCII letters,
a space, and the crab emoji (a four byte code point), as used by
`demo_unicode` in main.rs (line 654) and reported by `display_bytes`
(inspector.rs lines 357-358). -/
def rustCrab : List Char :=
  ['R', 'u', 's', 't', ' ', '🦀']

/-- CLAIM C7, counterexample: the byte count of the Rust-crab string is 9,
not 10 — four ASCII letters, one space and one four byte code point add up to
4 + 1 + 4 = 9 encoded bytes.  The arithmetic behind the claimed total of 10
is wrong. -/
theorem unicode_byte_count_is_nine :
    byteLen rustCrab = 9 ∧ byteLen rustCrab ≠ 10 := by
  decide

/-- CLAIM C7, amended: for the input Rust-crab string a length in bytes of 9
and a character count of 6 are both derivable, and the two counts differ, so
the system distinguishes encoded byte length from character count. -/
theorem unicode_byte_char_divergence :
    byteLen rustCrab = 9 ∧ charsCount rustCrab = 6 ∧
    byteLen rustCrab ≠ charsCount rustCrab := by
  decide

/-- Translation of the usage percentage of `StringMemoryInfo::fmt`
(inspector.rs lines 30-34): when the capacity is positive it is
`length / capacity * 100`, otherwise it is defined as zero.  The `f64`
arithmetic of the source is modelled exactly over the rationals. -/
def usage_percent (i : StringMemoryInfo) : ℚ :=
  if 0 < i.capacity then (i.length : ℚ) / (i.capacity : ℚ) * 100 else 0

/-- Translation of the filled block count of the memory bar (inspector.rs
line 36): `((length as f64 / capacity.max(1) as f64) * 20.0) as usize`.  The
float-to-usize cast truncates toward zero, so the value is the floor of
`length * 20 / max capacity 1`, which is natural number division. -/
def filled_blocks (i : StringMemoryInfo) : Nat :=
  i.length * 20 / max i.capacity 1

/-- Translation of the empty block count (inspector.rs line 37):
`20 - filled_blocks` is plain `usize` subtraction, which underflows (a panic
in debug builds) when `filled_blocks` exceeds 20; the fallible subtraction is
modelled with `Option`. -/
def empty_blocks (i : StringMemoryInfo) : Option Nat :=
  if filled_blocks i ≤ 20 then some (20 - filled_blocks i) else none

/-- Translation of the wasted space display (inspector.rs line 92):
`capacity.saturating_sub(length)`, which is exactly truncated natural number
subtraction. -/
def wasted_space (i : StringMemoryInfo) : Nat :=
  i.capacity - i.length

/-- CLAIM C8, counterexample: at the snapshot with length 2 and capacity 1
the memory bar computes 40 filled blocks, and the empty block count
`20 - filled_blocks` underflows — formatting is not total for every snapshot
value, only for those satisfying the `length <= capacity` invariant. -/
theorem fmt_not_total_without_invariant :
    let i : StringMemoryInfo :=
      { data_ptr := 0, object_ptr := 0, length := 2, capacity := 1,
        is_heap_allocated := true, desc := "bad" }
    filled_blocks i = 40 ∧ empty_blocks i = none := by
  decide

/-- CLAIM C8, amended: formatting is total for every snapshot satisfying the
captured invariant `length <= capacity` (including length 0 and capacity 0):
the usage percentage is 0 when the capacity is 0, the memory bar divisor
`max capacity 1` is never zero, and the wasted space display uses saturating
subtraction, so it never underflows, is 0 whenever `length >= capacity`, and
equals `capacity - length` exactly on the invariant. -/
theorem fmt_total_on_invariant (i : StringMemoryInfo) :
    (i.length ≤ i.capacity → (empty_blocks i).isSome = true) ∧
    (i.capacity = 0 → usage_percent i = 0) ∧
    0 < max i.capacity 1 ∧
    (i.capacity ≤ i.length → wasted_space i = 0) ∧
    (i.length ≤ i.capacity → wasted_space i + i.length = i.capacity) := by
  refine ⟨?_, ?_, ?_, ?_, ?_⟩
  · intro hle
    have hfb : filled_blocks i ≤ 20 := by
      unfold filled_blocks
      rcases Nat.eq_zero_or_pos i.capacity with hc | hc
      · have hlen : i.length = 0 := by omega
        simp [hlen]
      · have hmax : max i.capacity 1 = i.capacity := by omega
        rw [hmax]
        calc i.length * 20 / i.capacity ≤ i.capacity * 20 / i.capacity :=
              Nat.div_le_div_right (Nat.mul_le_mul_right 20 hle)
          _ = 20 := Nat.mul_div_cancel_left 20 hc
    simp [empty_blocks, hfb]
  · intro hc
    simp [usage_percent, hc]
  · omega
  · intro h; unfold wasted_space; omega
  · intro h; unfold wasted_space; omega

/-- Concrete snapshot used by the formatting witness: the demo string of
length 4 in a buffer of capacity 8. -/
def demoInfo : StringMemoryInfo :=
  inspect_string sRustDemo 1 "demo"

/-- Witness for the amended C8 at the concrete demo snapshot. -/
theorem fmt_total_on_invariant_witness :
    demoInfo.length ≤ demoInfo.capacity ∧
    (empty_blocks demoInfo).isSome = true ∧
    wasted_space demoInfo + demoInfo.length = demoInfo.capacity := by
  refine ⟨by decide, ?_, ?_⟩
  · exact (fmt_total_on_invariant demoInfo).1 (by decide)
  · exact (fmt_total_on_invariant demoInfo).2.2.2.2 (by decide)

/-- Translation of `StringManipulator::reverse` (transformer.rs lines
175-189): `s.chars().rev().collect::<String>()` reverses the sequence of
characters, not the bytes.  The timing wrapper and the operation counter are
instrumentation with no effect on the produced string and are not
modelled. -/
def StringManipulator.reverse (s : List Char) : List Char :=
  s.reverse

/-- CLAIM C9: the reverse transformation preserves the character count and is
an involution on the character sequence. -/
theorem reverse_char_count_involution (s : List Char) :
    charsCount (StringManipulator.reverse s) = charsCount s ∧
    StringManipulator.reverse (StringManipulator.reverse s) = s := by
  constructor
  · simp [StringManipulator.reverse, charsCount]
  · simp [StringManipulator.reverse]

/-- One iteration of the building loop of `StringManipulator::repeat`
(transformer.rs lines 221-223): push the content and record whether this push
took the reallocation branch. -/
def repeatStep (g : GrowthOracle) (p : RustString × Nat) (u : List Char) :
    RustString × Nat :=
  (push_str g p.1 u, p.2 + (if push_reallocates p.1 u then 1 else 0))

/-- Translation of `StringManipulator::repeat` (transformer.rs lines
215-236): pre-allocate a buffer of capacity `byteLen t * count`, then push
the content `count` times.  The pair returned here also counts how many of
those pushes reallocated, which the theorem below shows to be zero.  The
timing wrapper and the operation counter are instrumentation and are not
modelled. -/
def StringManipulator.repeatRun (g : GrowthOracle) (t : List Char)
    (count : Nat) (startAddr : Nat) : RustString × Nat :=
  (List.replicate count t).foldl (repeatStep g)
    (with_capacity startAddr (byteLen t * count), 0)

/-- The string value produced by `StringManipulator::repeat`. -/
def StringManipulator.repeatStr (g : GrowthOracle) (t : List Char)
    (count : Nat) (startAddr : Nat) : RustString :=
  (StringManipulator.repeatRun g t count startAddr).1

theorem byteLen_join_replicate (count : Nat) (t : List Char) :
    byteLen (List.replicate count t).flatten = count * byteLen t := by
  induction count with
  | zero => simp [byteLen]
  | succ n ih =>
    rw [List.replicate_succ, List.flatten_cons, byteLen_append, ih, Nat.succ_mul]
    ring

/-- Invariant of the building loop: as long as the remaining pushes fit in
the reserved capacity, every push stays in place — the address, the capacity
and the reallocation count never change, and the content grows by one copy
per push. -/
theorem repeat_loop (g : GrowthOracle) (t : List Char) :
    ∀ (i : Nat) (s : RustString) (k : Nat),
      byteLen s.data + byteLen t * i ≤ s.capacity →
      (List.replicate i t).foldl (repeatStep g) (s, k) =
        ({ addr := s.addr, capacity := s.capacity,
           data := s.data ++ (List.replicate i t).flatten }, k) := by
  intro i
  induction i with
  | zero => intro s k _; simp
  | succ n ih =>
    intro s k h
    rw [Nat.mul_succ] at h
    have hfit : byteLen s.data + byteLen t ≤ s.capacity := by omega
    have hstep : repeatStep g (s, k) t = ({ s with data := s.data ++ t }, k) := by
      have hnr : push_reallocates s t = false := by
        simp [push_reallocates]; omega
      simp [repeatStep, hnr, push_str, hfit]
    have hih := ih { s with data := s.data ++ t } k
      (show byteLen (s.data ++ t) + byteLen t * n ≤ s.capacity by
        rw [byteLen_append]; omega)
    rw [List.replicate_succ, List.foldl_cons, hstep, hih]
    simp [List.replicate_succ, List.flatten_cons, List.append_assoc]

/-- CLAIM C10: `repeat` returns the concatenation of `count` copies of the
input, whose byte length is exactly `count * byteLen t`; the buffer is created
with exactly that capacity up front, and no reallocation occurs during the
building loop (the reallocation count is zero and the buffer address and
capacity are those of the initial allocation). -/
theorem repeat_exact_capacity_no_realloc (g : GrowthOracle) (t : List Char)
    (count : Nat) (startAddr : Nat) :
    (StringManipulator.repeatStr g t count startAddr).data =
      (List.replicate count t).flatten ∧
    byteLen (StringManipulator.repeatStr g t count startAddr).data =
      count * byteLen t ∧
    (StringManipulator.repeatRun g t count startAddr).2 = 0 ∧
    (StringManipulator.repeatStr g t count startAddr).addr = startAddr ∧
    (StringManipulator.repeatStr g t count startAddr).capacity =
      byteLen t * count := by
  have h := repeat_loop g t count (with_capacity startAddr (byteLen t * count)) 0
    (by simp [with_capacity, byteLen, Nat.mul_comm])
  unfold StringManipulator.repeatStr StringManipulator.repeatRun
  rw [h]
  refine ⟨by simp [with_capacity], ?_, rfl, rfl, rfl⟩
  simp [with_capacity, byteLen_join_replicate]
